import Mathlib

/-!
Verification of `monitor_bgsds.py` (a polling change-detector that watches a
bulletin-listing web page, extracts a publication date from each link label,
compares the newest one against a persisted watermark and sends a Telegram
notification on change).

The Python program is shallowly embedded: external effects (HTTP fetches,
environment variables, the Telegram transport, the watermark file) are passed
in explicitly; each Python function becomes a Lean function of the same name.
Machine-level caveats of the embedding, noted where relevant: Python `str`
operations on non-ASCII code points (`upper`, `lower`, Unicode digits and
exotic whitespace) are modelled on their ASCII behaviour, which is the range
exercised by this program's data.
-/

namespace Monitor

/-- Decidable equality on `Except`, for concrete evaluation of results. -/
instance {ε α : Type} [DecidableEq ε] [DecidableEq α] : DecidableEq (Except ε α) := fun x y =>
  match x, y with
  | .ok a, .ok b => if h : a = b then isTrue (by rw [h]) else isFalse (by simp [h])
  | .error a, .error b => if h : a = b then isTrue (by rw [h]) else isFalse (by simp [h])
  | .ok _, .error _ => isFalse (by simp)
  | .error _, .ok _ => isFalse (by simp)

/-! ## Character helpers (ASCII model of the Python `str` predicates) -/

/-- Whitespace as matched by the regex class `\s` (ASCII range): space, tab,
newline, carriage return, vertical tab, form feed. -/
def isPySpace (c : Char) : Bool :=
  c.toNat == 32 || c.toNat == 9 || c.toNat == 10 || c.toNat == 13 ||
    c.toNat == 11 || c.toNat == 12

/-- Decimal digit as matched by the regex class `\d` (ASCII range,
code points 48–57). -/
def isPyDigit (c : Char) : Bool :=
  48 ≤ c.toNat && c.toNat ≤ 57

/-- Uppercase letter as matched by the regex class `[A-Z]`
(code points 65–90). -/
def isUpperAZ (c : Char) : Bool :=
  65 ≤ c.toNat && c.toNat ≤ 90

/-- Value of a decimal digit character. -/
def digitVal (c : Char) : Nat := c.toNat - 48

/-- Digit character for a value `0 ≤ n ≤ 9` (total; callers keep `n < 10`). -/
def digitChar : Nat → Char
  | 0 => '0' | 1 => '1' | 2 => '2' | 3 => '3' | 4 => '4'
  | 5 => '5' | 6 => '6' | 7 => '7' | 8 => '8' | _ => '9'

/-- Numeric value of a list of digit characters, most significant first
(the effect of Python `int` on a digit string). -/
def digitsVal (l : List Char) : Nat :=
  l.foldl (fun acc c => acc * 10 + digitVal c) 0

/-- ASCII model of Python `str.upper` on one character. -/
def pyUpperChar (c : Char) : Char := c.toUpper

/-- ASCII model of Python `str.upper`. -/
def pyUpperL (l : List Char) : List Char := l.map pyUpperChar

/-- ASCII model of Python `str.lower` on one character. -/
def pyLowerChar (c : Char) : Char := c.toLower

/-- ASCII model of Python `str.lower`. -/
def pyLowerL (l : List Char) : List Char := l.map pyLowerChar

/-- Python `str.strip()`: remove leading and trailing whitespace. -/
def pyStripL (l : List Char) : List Char :=
  ((l.dropWhile isPySpace).reverse.dropWhile isPySpace).reverse

/-- Python substring containment `needle in hay`. -/
def containsSubL (needle : List Char) : List Char → Bool
  | [] => needle.isEmpty
  | c :: t => needle.isPrefixOf (c :: t) || containsSubL needle t

/-- Python `needle in hay` on strings. -/
def pyIn (needle hay : String) : Bool := containsSubL needle.data hay.data

/-- Python truthiness of an optional string (`os.environ.get` / soup `get`):
`None` and the empty string are falsy. -/
def pyTruthy : Option String → Bool
  | none => false
  | some s => !(s.data.isEmpty)

/-! ## The `datetime` value model

The program builds `datetime(year, month, day)` objects (midnight times) from
parsed labels, compares them with `>`, serialises them with `isoformat` and
parses them back with `fromisoformat`.  A `datetime` is modelled as six `Nat`
fields; comparison is lexicographic, as in CPython. -/

structure Dt where
  year : Nat
  month : Nat
  day : Nat
  hour : Nat
  minute : Nat
  second : Nat
deriving DecidableEq, Repr

/-- CPython `datetime` strict comparison (lexicographic on the fields). -/
def dtLt (a b : Dt) : Prop :=
  a.year < b.year ∨ (a.year = b.year ∧
    (a.month < b.month ∨ (a.month = b.month ∧
      (a.day < b.day ∨ (a.day = b.day ∧
        (a.hour < b.hour ∨ (a.hour = b.hour ∧
          (a.minute < b.minute ∨ (a.minute = b.minute ∧
            a.second < b.second)))))))))

instance (a b : Dt) : Decidable (dtLt a b) := by
  unfold dtLt; exact inferInstance

/-- Non-strict counterpart of `dtLt`. -/
def dtLe (a b : Dt) : Prop := dtLt a b ∨ a = b

instance (a b : Dt) : Decidable (dtLe a b) := by
  unfold dtLe; exact inferInstance

/-- Gregorian leap-year rule used by `datetime`. -/
def isLeap (y : Nat) : Bool :=
  y % 4 == 0 && (y % 100 != 0 || y % 400 == 0)

/-- Number of days in a month (`0` for an out-of-range month). -/
def daysInMonth (y m : Nat) : Nat :=
  match m with
  | 1 => 31 | 3 => 31 | 5 => 31 | 7 => 31 | 8 => 31 | 10 => 31 | 12 => 31
  | 4 => 30 | 6 => 30 | 9 => 30 | 11 => 30
  | 2 => if isLeap y then 29 else 28
  | _ => 0

/-- The range check `datetime.__init__` performs on year/month/day. -/
def validYMD (y m d : Nat) : Prop :=
  1 ≤ y ∧ y ≤ 9999 ∧ 1 ≤ m ∧ m ≤ 12 ∧ 1 ≤ d ∧ d ≤ daysInMonth y m

instance (y m d : Nat) : Decidable (validYMD y m d) := by
  unfold validYMD; exact inferInstance

/-- Full validity of a `datetime` value. -/
def validDt (t : Dt) : Prop :=
  validYMD t.year t.month t.day ∧ t.hour ≤ 23 ∧ t.minute ≤ 59 ∧ t.second ≤ 59

instance (t : Dt) : Decidable (validDt t) := by
  unfold validDt; exact inferInstance

/-- `datetime(ano, mes, dia)`: midnight on success, `ValueError` (modelled as
`Except.error ()`) when the fields are out of range. -/
def mkDatetime (y m d : Nat) : Except Unit Dt :=
  if validYMD y m d then .ok ⟨y, m, d, 0, 0, 0⟩ else .error ()

/-! ## ISO-8601 serialisation (`isoformat` / `fromisoformat`) -/

/-- Two-digit zero-padded decimal rendering (`%02d`). -/
def pad2 (n : Nat) : List Char := [digitChar (n / 10 % 10), digitChar (n % 10)]

/-- Four-digit zero-padded decimal rendering (`%04d`). -/
def pad4 (n : Nat) : List Char :=
  [digitChar (n / 1000 % 10), digitChar (n / 100 % 10),
   digitChar (n / 10 % 10), digitChar (n % 10)]

/-- Characters of `datetime.isoformat()` (microseconds are zero, so CPython
prints `YYYY-MM-DDTHH:MM:SS`). -/
def isoformatL (t : Dt) : List Char :=
  pad4 t.year ++ '-' :: pad2 t.month ++ '-' :: pad2 t.day ++
    'T' :: pad2 t.hour ++ ':' :: pad2 t.minute ++ ':' :: pad2 t.second

/-- `datetime.isoformat()` as a string. -/
def isoformat (t : Dt) : String := String.mk (isoformatL t)

/-- Parse the `HH:MM:SS` tail of an ISO string; any failure is a
`ValueError`, modelled as `none`. -/
def parseIsoTime (l : List Char) : Option (Nat × Nat × Nat) :=
  match l with
  | [h1, h2, ':', n1, n2, ':', s1, s2] =>
    if isPyDigit h1 && isPyDigit h2 && isPyDigit n1 && isPyDigit n2 &&
        isPyDigit s1 && isPyDigit s2 then
      let h := digitsVal [h1, h2]
      let n := digitsVal [n1, n2]
      let s := digitsVal [s1, s2]
      if h ≤ 23 && n ≤ 59 && s ≤ 59 then some (h, n, s) else none
    else none
  | _ => none

/-- `datetime.fromisoformat` on the formats this program reads and writes:
`YYYY-MM-DD` optionally followed by a one-character separator and `HH:MM:SS`.
Any string outside this shape, or with out-of-range fields, raises a
`ValueError` in CPython, modelled as `none`. -/
def fromisoformatL (l : List Char) : Option Dt :=
  match l with
  | y1 :: y2 :: y3 :: y4 :: '-' :: m1 :: m2 :: '-' :: d1 :: d2 :: rest =>
    if isPyDigit y1 && isPyDigit y2 && isPyDigit y3 && isPyDigit y4 &&
        isPyDigit m1 && isPyDigit m2 && isPyDigit d1 && isPyDigit d2 then
      let y := digitsVal [y1, y2, y3, y4]
      let m := digitsVal [m1, m2]
      let d := digitsVal [d1, d2]
      if validYMD y m d then
        match rest with
        | [] => some ⟨y, m, d, 0, 0, 0⟩
        | _ :: timePart =>
          match parseIsoTime timePart with
          | some (h, n, s) => some ⟨y, m, d, h, n, s⟩
          | none => none
      else none
    else none
  | _ => none

/-- `datetime.fromisoformat` on strings. -/
def fromisoformat (s : String) : Option Dt := fromisoformatL s.data

/-! ## Watermark store (`carrega_ultimo` / `salva_ultimo`)

The file `LAST_ID_FILE` is modelled by its content: `none` when the file does
not exist, `some s` when it holds the text `s`. -/

/-- `carrega_ultimo()`: read the watermark file, strip whitespace, parse as an
ISO datetime; a missing file or any exception yields `None`. -/
def carrega_ultimo (file : Option String) : Option Dt :=
  match file with
  | none => none
  | some content => fromisoformatL (pyStripL content.data)

/-- `salva_ultimo(data)`: overwrite the watermark file with
`data.isoformat()`; returns the new file content. -/
def salva_ultimo (data : Dt) : Option String := some (isoformat data)

/-! ## Date Extractor (`parse_data`)

The Python code runs `re.search(r"DE\s*(\d{1,2})([A-Z]{3})(\d{4})", texto.upper())`.
`matchAt` decides whether the pattern matches at the head of a character
list; because the character classes `\s`, `\d` and `[A-Z]` are pairwise
disjoint, the greedy quantifiers `\s*` and `\d{1,2}` reduce to taking the
maximal run (a maximal digit run of length other than 1 or 2 can never be
completed to a match).  `searchFirst` scans positions left to right, giving
`re.search`'s leftmost-match semantics. -/

/-- Stage 3 of the anchored pattern: `(\d{4})` at the head of `r3` (anything
may follow), with the day digits and month letters already captured. -/
def matchYear (ds mon r3 : List Char) : Option (Nat × List Char × Nat) :=
  match r3 with
  | c1 :: c2 :: c3 :: c4 :: _ =>
    if isPyDigit c1 && isPyDigit c2 && isPyDigit c3 && isPyDigit c4 then
      some (digitsVal ds, mon, digitsVal [c1, c2, c3, c4])
    else none
  | _ => none

/-- Stage 2 of the anchored pattern: `([A-Z]{3})` at the head of `r2`. -/
def matchMonth (ds r2 : List Char) : Option (Nat × List Char × Nat) :=
  match r2 with
  | m1 :: m2 :: m3 :: r3 =>
    if isUpperAZ m1 && isUpperAZ m2 && isUpperAZ m3 then
      matchYear ds [m1, m2, m3] r3
    else none
  | _ => none

/-- Stage 1 of the anchored pattern: `(\d{1,2})` after the whitespace has been
consumed.  The character classes `\d` and `[A-Z]` are disjoint, so the greedy
`\d{1,2}` with backtracking is equivalent to taking the maximal digit run and
requiring its length to be 1 or 2. -/
def matchAfterDE (r1 : List Char) : Option (Nat × List Char × Nat) :=
  if (r1.takeWhile isPyDigit).length = 1 ∨ (r1.takeWhile isPyDigit).length = 2 then
    matchMonth (r1.takeWhile isPyDigit) (r1.dropWhile isPyDigit)
  else none

/-- Match `DE\s*(\d{1,2})([A-Z]{3})(\d{4})` anchored at the head of `cs`,
returning the captured (day value, month letters, year value).  `\s*` is
greedy, and `\s` and `\d` are disjoint, so it consumes the maximal
whitespace run. -/
def matchAt (cs : List Char) : Option (Nat × List Char × Nat) :=
  match cs with
  | c1 :: c2 :: rest =>
    if c1 = 'D' ∧ c2 = 'E' then matchAfterDE (rest.dropWhile isPySpace) else none
  | _ => none

/-- `re.search`: the match at the leftmost position where one exists. -/
def searchFirst (cs : List Char) : Option (Nat × List Char × Nat) :=
  match cs with
  | [] => none
  | _ :: t =>
    match matchAt cs with
    | some r => some r
    | none => searchFirst t

/-- The `MESES` lookup table (month abbreviation → zero-padded month string),
in source order. -/
def MESES : List (String × String) :=
  [("JAN", "01"), ("FEV", "02"), ("MAR", "03"), ("ABR", "04"),
   ("MAI", "05"), ("JUN", "06"), ("JUL", "07"), ("AGO", "08"),
   ("SET", "09"), ("OUT", "10"), ("NOV", "11"), ("DEZ", "12")]

/-- `MESES.get(mes_abrev)`. -/
def mesesGet (k : List Char) : Option String :=
  (MESES.find? (fun p => p.1.data == k)).map Prod.snd

/-- `parse_data(texto)`: uppercase the label, search for the date pattern,
map the month abbreviation through `MESES` and build a `datetime`.
`Except.error ()` is the uncaught `ValueError` from `datetime` on an
out-of-range date; `.ok none` is Python `None` (no match / unknown month). -/
def parse_data (texto : String) : Except Unit (Option Dt) :=
  match searchFirst (pyUpperL texto.data) with
  | none => .ok none
  | some (dia, mesAbrev, ano) =>
    match mesesGet mesAbrev with
    | none => .ok none
    | some mes => (mkDatetime ano (digitsVal mes.data) dia).map some

/-! ## Listing Parser (`lista_boletins`)

The HTML layer (`BeautifulSoup`, `find_all("a")`, `get_text(strip=True)`,
`get("href")`) is external: a fetched page is modelled as the list of its
anchors, each carrying its visible text and optional `href`.  URL resolution
(`requests.compat.urljoin`) is likewise external and passed in as `join`. -/

structure Anchor where
  texto : String
  href : Option String
deriving DecidableEq, Repr

/-- A bulletin candidate `(data, texto, pdf_url)` as appended to `boletins`. -/
abbrev Bulletin := Dt × String × String

/-- The listing page URL. -/
def URL : String := "https://www.sds.pe.gov.br/boletim-geral"

/-- The anchor-scanning loop of `lista_boletins`, before sorting: keep anchors
whose text contains `"BGSDS"`, parse a date from the text (a `ValueError`
from `datetime` propagates and aborts the whole scan), drop entries with a
falsy `href`, and resolve the href against `URL`. -/
def candidatos (join : String → String → String) :
    List Anchor → Except Unit (List Bulletin)
  | [] => .ok []
  | a :: rest =>
    if pyIn "BGSDS" a.texto then
      match parse_data a.texto with
      | .error e => .error e
      | .ok none => candidatos join rest
      | .ok (some data) =>
        if pyTruthy a.href then
          (candidatos join rest).map
            (fun l => (data, a.texto, join URL (a.href.getD "")) :: l)
        else candidatos join rest
    else candidatos join rest

/-- Stable insertion step for a descending sort on the date component:
walk past elements with a strictly greater date, insert before the first
element whose date is not greater. -/
def insertDesc (x : Bulletin) : List Bulletin → List Bulletin
  | [] => [x]
  | y :: ys => if dtLt x.1 y.1 then y :: insertDesc x ys else x :: y :: ys

/-- `boletins.sort(key=lambda x: x[0], reverse=True)`: CPython's sort is
stable, and `reverse=True` keeps equal keys in original order; this stable
descending sort computes the same permutation. -/
def sortDesc : List Bulletin → List Bulletin
  | [] => []
  | x :: xs => insertDesc x (sortDesc xs)

/-- `lista_boletins()`: on a transport failure of the page fetch (modelled as
`fetch = none`) print and return the empty list; otherwise scan the page's
anchors and sort the result by date, most recent first. -/
def lista_boletins (join : String → String → String)
    (fetch : Option (List Anchor)) : Except Unit (List Bulletin) :=
  match fetch with
  | none => .ok []
  | some anchors => (candidatos join anchors).map sortDesc

/-! ## Document Analyzer (`busca_palavras_no_pdf`, `monta_resumo_palavras`) -/

/-- The configured keyword list. -/
def KEYWORDS : List String := ["dominguez", "agostinho"]

/-- The keyword scan of `busca_palavras_no_pdf` once the text is in hand:
for each keyword, case-insensitive substring containment (dict insertion
order = configuration order). -/
def busca_palavras (texto : String) (palavras : List String) :
    List (String × Bool) :=
  palavras.map (fun p => (p, containsSubL (pyLowerL p.data) (pyLowerL texto.data)))

/-- `monta_resumo_palavras(resultado)`. -/
def monta_resumo_palavras (resultado : List (String × Bool)) : String :=
  String.intercalate "\n"
    (resultado.map (fun pr =>
      "• <b>" ++ pr.1 ++ "</b>: " ++
        (if pr.2 then "✅ encontrada" else "❌ não encontrada")))

/-! ## Notification sink (`envia_telegram`) -/

/-- The two environment variables read by `envia_telegram`. -/
structure Env where
  token : Option String
  chat_id : Option String
deriving DecidableEq, Repr

/-- Outcome of one `envia_telegram` call: the config check failed (printed,
no post attempted), or a post was attempted and succeeded / raised. -/
inductive SendOutcome where
  | configMissing
  | posted (ok : Bool)
deriving DecidableEq, Repr

/-- `envia_telegram(mensagem)`: if either `TELEGRAM_BOT_TOKEN` or
`TELEGRAM_CHAT_ID` is unset or empty, print an error and return without
posting; otherwise attempt the post, whose transport success is `transportOk`
(an exception is caught and printed). -/
def envia_telegram (env : Env) (transportOk : Bool) : SendOutcome :=
  if !(pyTruthy env.token) || !(pyTruthy env.chat_id) then .configMissing
  else .posted transportOk

/-! ## Orchestrator (`main`)

One run's interaction with the outside world: the listing fetch (`none` =
transport failure, caught inside `lista_boletins`), the PDF fetch/extraction
(`none` = `busca_palavras_no_pdf` raised, with `pdfErr` the exception text),
and whether a Telegram post would succeed.  The run result records the
watermark file content after the run and every `envia_telegram` call made,
with its message and outcome.  A `ValueError` escaping `parse_data` is not
caught anywhere in `main`: the run aborts (`Except.error ()`) with the file
untouched and no dispatch made. -/

structure World where
  listing : Option (List Anchor)
  pdfText : Option String
  pdfErr : String
  telegramOk : Bool

structure RunResult where
  file : Option String
  dispatches : List (String × SendOutcome)
deriving DecidableEq, Repr

/-- The message header prepended to every outgoing message. -/
def header : String := "<b>Relatório do Boletim Geral da SDS/PE</b>\n"

/-- The diagnostic appended when the bulletin list is empty. -/
def avisoListaVazia : String := "⚠️ Não foi possível ler a lista de boletins no site."

/-- The `data_ultima is None or data_nova > data_ultima` test. -/
def novaAtualizacao (data_ultima : Option Dt) (data_nova : Dt) : Bool :=
  match data_ultima with
  | none => true
  | some d => decide (dtLt d data_nova)

/-- The keyword-summary string of the CHANGED branch: the report on success,
the `except` clause's analysis-failure marker when
`busca_palavras_no_pdf` raised. -/
def resumoPalavras (w : World) : String :=
  match w.pdfText with
  | some texto => monta_resumo_palavras (busca_palavras texto KEYWORDS)
  | none => "⚠️ Erro ao analisar o PDF: " ++ w.pdfErr

/-- The CHANGED-branch message body (`corpo_msg`). -/
def corpoMsg (titulo_novo pdf_url resumo : String) : String :=
  "✅ <b>Atualização encontrada!</b>\n\n" ++
    "<b>" ++ titulo_novo ++ "</b>\n" ++
    "📄 <a href=\"" ++ pdf_url ++ "\">Abrir PDF</a>\n\n" ++
    "<b>Busca de palavras-chave:</b>\n" ++ resumo

/-- `main()`.  Branches, in source order: empty bulletin list → send the
diagnostic and return; new update (watermark absent or newest date strictly
greater) → build the report, write the watermark (step 3), then call
`envia_telegram` (step 4); otherwise → print and do nothing. -/
def mainRun (join : String → String → String) (env : Env) (w : World)
    (file : Option String) : Except Unit RunResult :=
  match lista_boletins join w.listing with
  | .error e => .error e
  | .ok [] =>
    let mensagem_final := header ++ avisoListaVazia
    .ok ⟨file, [(mensagem_final, envia_telegram env w.telegramOk)]⟩
  | .ok ((data_nova, titulo_novo, pdf_url) :: _) =>
    let data_ultima := carrega_ultimo file
    if novaAtualizacao data_ultima data_nova then
      let corpo := corpoMsg titulo_novo pdf_url (resumoPalavras w)
      let file2 := salva_ultimo data_nova
      let mensagem_final := header ++ corpo
      .ok ⟨file2, [(mensagem_final, envia_telegram env w.telegramOk)]⟩
    else
      .ok ⟨file, []⟩

/-- Number of messages a run actually delivered (posted with transport
success). -/
def sentCount (r : RunResult) : Nat :=
  (r.dispatches.filter (fun d => d.2 == .posted true)).length

/-! ## Supporting lemmas: digits and ISO round-trip -/

theorem isPySpace_digitChar (n : Nat) : isPySpace (digitChar n) = false := by
  unfold digitChar; split <;> rfl

theorem isPyDigit_digitChar (n : Nat) : isPyDigit (digitChar n) = true := by
  unfold digitChar; split <;> rfl

theorem digitVal_digitChar (n : Nat) (h : n < 10) : digitVal (digitChar n) = n := by
  interval_cases n <;> rfl

theorem digitsVal_pad2 (n : Nat) (h : n < 100) : digitsVal (pad2 n) = n := by
  simp only [pad2, digitsVal, List.foldl]
  rw [digitVal_digitChar _ (by omega), digitVal_digitChar _ (by omega)]
  omega

theorem digitsVal_pad4 (n : Nat) (h : n < 10000) : digitsVal (pad4 n) = n := by
  simp only [pad4, digitsVal, List.foldl]
  rw [digitVal_digitChar _ (by omega), digitVal_digitChar _ (by omega),
    digitVal_digitChar _ (by omega), digitVal_digitChar _ (by omega)]
  omega

theorem daysInMonth_le (y m : Nat) : daysInMonth y m ≤ 31 := by
  unfold daysInMonth; split <;> (try split) <;> omega

theorem pyStripL_isoformatL (t : Dt) : pyStripL (isoformatL t) = isoformatL t := by
  simp [pyStripL, isoformatL, pad4, pad2, List.dropWhile_cons, isPySpace_digitChar]

theorem parseIsoTime_pads (h n s : Nat) (hh : h ≤ 23) (hn : n ≤ 59) (hs : s ≤ 59) :
    parseIsoTime (pad2 h ++ ':' :: pad2 n ++ ':' :: pad2 s) = some (h, n, s) := by
  have eh : digitsVal [digitChar (h / 10 % 10), digitChar (h % 10)] = h := by
    have := digitsVal_pad2 h (by omega); simpa [pad2] using this
  have en : digitsVal [digitChar (n / 10 % 10), digitChar (n % 10)] = n := by
    have := digitsVal_pad2 n (by omega); simpa [pad2] using this
  have es : digitsVal [digitChar (s / 10 % 10), digitChar (s % 10)] = s := by
    have := digitsVal_pad2 s (by omega); simpa [pad2] using this
  simp only [pad2, List.cons_append, List.nil_append, parseIsoTime,
    isPyDigit_digitChar, Bool.and_self, if_true, eh, en, es]
  simp [hh, hn, hs]

theorem fromisoformatL_isoformatL (t : Dt) (h : validDt t) :
    fromisoformatL (isoformatL t) = some t := by
  obtain ⟨y, m, d, hh, mi, s⟩ := t
  simp only [validDt, validYMD] at h
  obtain ⟨⟨h1, h2, h3, h4, h5, h6⟩, hhh, hmi, hs⟩ := h
  simp only [isoformatL, pad4, pad2, List.cons_append, List.nil_append, fromisoformatL,
    isPyDigit_digitChar, Bool.and_self, if_true]
  have hy : digitsVal [digitChar (y / 1000 % 10), digitChar (y / 100 % 10),
      digitChar (y / 10 % 10), digitChar (y % 10)] = y := by
    have := digitsVal_pad4 y (by omega); simpa [pad4] using this
  have hm : digitsVal [digitChar (m / 10 % 10), digitChar (m % 10)] = m := by
    have := digitsVal_pad2 m (by omega); simpa [pad2] using this
  have hd : digitsVal [digitChar (d / 10 % 10), digitChar (d % 10)] = d := by
    have hb := daysInMonth_le y m
    have := digitsVal_pad2 d (by omega); simpa [pad2] using this
  rw [hy, hm, hd]
  have hv : validYMD y m d := ⟨h1, h2, h3, h4, h5, h6⟩
  rw [if_pos hv]
  have := parseIsoTime_pads hh mi s hhh hmi hs
  simp only [pad2, List.cons_append, List.nil_append] at this
  rw [this]

theorem carrega_salva (d : Dt) (h : validDt d) :
    carrega_ultimo (salva_ultimo d) = some d := by
  show fromisoformatL (pyStripL (isoformatL d)) = some d
  rw [pyStripL_isoformatL, fromisoformatL_isoformatL d h]

/-- Claim C10: watermark store round-trip — for every valid datetime `d`,
saving `d` with `salva_ultimo` and loading the resulting file content with
`carrega_ultimo` returns exactly `d` (the ISO-8601 text written by save is
parsed back to an equal value by load). -/
theorem c10_watermark_roundtrip (d : Dt) (h : validDt d) :
    carrega_ultimo (salva_ultimo d) = some d :=
  carrega_salva d h

/-- Witness for C10 at the concrete date 2024-03-15 (midnight). -/
theorem c10_witness :
    validDt ⟨2024, 3, 15, 0, 0, 0⟩ ∧
      carrega_ultimo (salva_ultimo ⟨2024, 3, 15, 0, 0, 0⟩) = some ⟨2024, 3, 15, 0, 0, 0⟩ :=
  ⟨by decide, c10_watermark_roundtrip ⟨2024, 3, 15, 0, 0, 0⟩ (by decide)⟩

/-! ## Supporting lemmas: the `datetime` order -/

theorem dtLt_irrefl (a : Dt) : ¬ dtLt a a := by
  unfold dtLt; omega

theorem dtLe_of_not_lt {a b : Dt} (h : ¬ dtLt a b) : dtLe b a := by
  obtain ⟨ay, am, ad, ah, ai, as⟩ := a
  obtain ⟨by', bm, bd, bh, bi, bs⟩ := b
  by_cases hba : dtLt ⟨by', bm, bd, bh, bi, bs⟩ ⟨ay, am, ad, ah, ai, as⟩
  · exact Or.inl hba
  · simp only [dtLt] at h hba
    refine Or.inr ?_
    simp only [Dt.mk.injEq]
    omega

theorem dtLe_of_lt {a b : Dt} (h : dtLt a b) : dtLe a b := Or.inl h

theorem dtLt_trans {a b c : Dt} (h1 : dtLt a b) (h2 : dtLt b c) : dtLt a c := by
  obtain ⟨ay, am, ad, ah, ai, as⟩ := a
  obtain ⟨by', bm, bd, bh, bi, bs⟩ := b
  obtain ⟨cy, cm, cd, ch, ci, cs⟩ := c
  unfold dtLt at *
  omega

theorem dtLe_trans {a b c : Dt} (h1 : dtLe a b) (h2 : dtLe b c) : dtLe a c := by
  rcases h1 with h1 | rfl
  · rcases h2 with h2 | rfl
    · exact Or.inl (dtLt_trans h1 h2)
    · exact Or.inl h1
  · exact h2

/-! ## Supporting lemmas: the stable descending sort -/

theorem mem_insertDesc {x z : Bulletin} {l : List Bulletin}
    (h : z ∈ insertDesc x l) : z = x ∨ z ∈ l := by
  induction l with
  | nil => simpa [insertDesc] using h
  | cons y ys ih =>
    unfold insertDesc at h
    split at h
    · rcases List.mem_cons.mp h with rfl | h2
      · exact Or.inr (List.mem_cons_self _ _)
      · rcases ih h2 with rfl | h3
        · exact Or.inl rfl
        · exact Or.inr (List.mem_cons_of_mem _ h3)
    · rcases List.mem_cons.mp h with rfl | h2
      · exact Or.inl rfl
      · exact Or.inr h2

theorem pairwise_insertDesc {x : Bulletin} {l : List Bulletin}
    (h : l.Pairwise (fun a b : Bulletin => dtLe b.1 a.1)) :
    (insertDesc x l).Pairwise (fun a b : Bulletin => dtLe b.1 a.1) := by
  induction l with
  | nil => simp [insertDesc]
  | cons y ys ih =>
    rcases List.pairwise_cons.mp h with ⟨hy, hys⟩
    unfold insertDesc
    split
    · refine List.pairwise_cons.mpr ⟨?_, ih hys⟩
      intro z hz
      rcases mem_insertDesc hz with rfl | hz2
      · exact dtLe_of_lt (by assumption)
      · exact hy z hz2
    · refine List.pairwise_cons.mpr ⟨?_, h⟩
      intro z hz
      rcases List.mem_cons.mp hz with rfl | hz2
      · exact dtLe_of_not_lt (by assumption)
      · exact dtLe_trans (hy z hz2) (dtLe_of_not_lt (by assumption))

theorem pairwise_sortDesc (l : List Bulletin) :
    (sortDesc l).Pairwise (fun a b : Bulletin => dtLe b.1 a.1) := by
  induction l with
  | nil => simp [sortDesc]
  | cons x xs ih => exact pairwise_insertDesc ih

theorem mem_sortDesc {z : Bulletin} {l : List Bulletin} (h : z ∈ sortDesc l) : z ∈ l := by
  induction l with
  | nil => simp [sortDesc] at h
  | cons x xs ih =>
    unfold sortDesc at h
    rcases mem_insertDesc h with rfl | h2
    · exact List.mem_cons_self _ _
    · exact List.mem_cons_of_mem _ (ih h2)

theorem filter_insertDesc (d : Dt) (x : Bulletin) (l : List Bulletin) :
    (insertDesc x l).filter (fun b => decide (b.1 = d)) =
      if x.1 = d then x :: l.filter (fun b => decide (b.1 = d))
      else l.filter (fun b => decide (b.1 = d)) := by
  induction l with
  | nil => by_cases hx : x.1 = d <;> simp [insertDesc, hx]
  | cons y ys ih =>
    unfold insertDesc
    split
    case isTrue hlt =>
      by_cases hx : x.1 = d
      · have hy : ¬ (y.1 = d) := by
          intro hyd
          rw [hx] at hlt
          rw [hyd] at hlt
          exact dtLt_irrefl d hlt
        simp only [List.filter_cons, decide_eq_false hy, Bool.false_eq_true, if_false,
          ih, if_pos hx]
      · simp only [List.filter_cons, ih, if_neg hx]
    case isFalse hge =>
      by_cases hx : x.1 = d <;> simp [List.filter_cons, hx]

theorem filter_sortDesc (d : Dt) (l : List Bulletin) :
    (sortDesc l).filter (fun b => decide (b.1 = d)) =
      l.filter (fun b => decide (b.1 = d)) := by
  induction l with
  | nil => rfl
  | cons x xs ih =>
    unfold sortDesc
    rw [filter_insertDesc d x (sortDesc xs), ih]
    by_cases hx : x.1 = d
    · rw [if_pos hx, List.filter_cons, decide_eq_true hx]; rfl
    · rw [if_neg hx, List.filter_cons, decide_eq_false hx]; rfl

/-- Claim C6: for every fetched page, the Listing Parser's output sequence is
sorted by `identity_date` in descending order (`dtLe b.1 a.1` pairwise), and
candidates with equal `identity_date` appear in their original document order:
for every date `d`, filtering the output at `d` gives exactly the pre-sort
(document-order) candidates at `d`. -/
theorem c6_sorted_stable (join : String → String → String) (anchors : List Anchor)
    (l0 l : List Bulletin)
    (h0 : candidatos join anchors = .ok l0)
    (h : lista_boletins join (some anchors) = .ok l) :
    l.Pairwise (fun a b : Bulletin => dtLe b.1 a.1) ∧
      ∀ d : Dt, l.filter (fun b => decide (b.1 = d)) =
        l0.filter (fun b => decide (b.1 = d)) := by
  have hl : l = sortDesc l0 := by
    simp only [lista_boletins, h0, Except.map, Except.ok.injEq] at h
    exact h.symm
  subst hl
  exact ⟨pairwise_sortDesc l0, fun d => filter_sortDesc d l0⟩

/-- Witness for C6: a page with two bulletins tied on 2024-03-15 (document
order `111` then `112`) and one dated 2024-03-16; the output is sorted
descending and the tie keeps document order. -/
theorem c6_witness :
    ([(⟨2024, 3, 16, 0, 0, 0⟩, "113 BGSDS DE 16MAR2024", "c.pdf"),
      (⟨2024, 3, 15, 0, 0, 0⟩, "111 BGSDS DE 15MAR2024", "a.pdf"),
      (⟨2024, 3, 15, 0, 0, 0⟩, "112 BGSDS DE 15MAR2024", "b.pdf")] : List Bulletin).Pairwise
        (fun a b : Bulletin => dtLe b.1 a.1) ∧
      ([(⟨2024, 3, 16, 0, 0, 0⟩, "113 BGSDS DE 16MAR2024", "c.pdf"),
        (⟨2024, 3, 15, 0, 0, 0⟩, "111 BGSDS DE 15MAR2024", "a.pdf"),
        (⟨2024, 3, 15, 0, 0, 0⟩, "112 BGSDS DE 15MAR2024", "b.pdf")] : List Bulletin).filter
          (fun b => decide (b.1 = ⟨2024, 3, 15, 0, 0, 0⟩)) =
        ([(⟨2024, 3, 15, 0, 0, 0⟩, "111 BGSDS DE 15MAR2024", "a.pdf"),
          (⟨2024, 3, 15, 0, 0, 0⟩, "112 BGSDS DE 15MAR2024", "b.pdf"),
          (⟨2024, 3, 16, 0, 0, 0⟩, "113 BGSDS DE 16MAR2024", "c.pdf")] : List Bulletin).filter
            (fun b => decide (b.1 = ⟨2024, 3, 15, 0, 0, 0⟩)) := by
  have h := c6_sorted_stable (fun _ h => h)
    [⟨"111 BGSDS DE 15MAR2024", some "a.pdf"⟩,
     ⟨"112 BGSDS DE 15MAR2024", some "b.pdf"⟩,
     ⟨"113 BGSDS DE 16MAR2024", some "c.pdf"⟩]
    [(⟨2024, 3, 15, 0, 0, 0⟩, "111 BGSDS DE 15MAR2024", "a.pdf"),
     (⟨2024, 3, 15, 0, 0, 0⟩, "112 BGSDS DE 15MAR2024", "b.pdf"),
     (⟨2024, 3, 16, 0, 0, 0⟩, "113 BGSDS DE 16MAR2024", "c.pdf")]
    [(⟨2024, 3, 16, 0, 0, 0⟩, "113 BGSDS DE 16MAR2024", "c.pdf"),
     (⟨2024, 3, 15, 0, 0, 0⟩, "111 BGSDS DE 15MAR2024", "a.pdf"),
     (⟨2024, 3, 15, 0, 0, 0⟩, "112 BGSDS DE 15MAR2024", "b.pdf")]
    (by decide) (by decide)
  exact ⟨h.1, h.2 ⟨2024, 3, 15, 0, 0, 0⟩⟩

/-! ## Supporting lemmas: the orchestrator's three branches -/

theorem envia_posted {env : Env} (ok : Bool)
    (htok : pyTruthy env.token = true) (hcid : pyTruthy env.chat_id = true) :
    envia_telegram env ok = .posted ok := by
  simp [envia_telegram, htok, hcid]

theorem envia_configMissing {env : Env} (ok : Bool)
    (hcfg : pyTruthy env.token = false ∨ pyTruthy env.chat_id = false) :
    envia_telegram env ok = .configMissing := by
  rcases hcfg with h | h <;> simp [envia_telegram, h]

theorem mainRun_empty (join : String → String → String) (env : Env) (w : World)
    (file : Option String) (hl : lista_boletins join w.listing = .ok []) :
    mainRun join env w file =
      .ok ⟨file, [(header ++ avisoListaVazia, envia_telegram env w.telegramOk)]⟩ := by
  simp only [mainRun, hl]

theorem mainRun_changed (join : String → String → String) (env : Env) (w : World)
    (file : Option String) (d : Dt) (t u : String) (rest : List Bulletin)
    (hl : lista_boletins join w.listing = .ok ((d, t, u) :: rest))
    (hch : novaAtualizacao (carrega_ultimo file) d = true) :
    mainRun join env w file =
      .ok ⟨salva_ultimo d,
        [(header ++ corpoMsg t u (resumoPalavras w), envia_telegram env w.telegramOk)]⟩ := by
  simp only [mainRun, hl, hch, if_true]

theorem mainRun_unchanged (join : String → String → String) (env : Env) (w : World)
    (file : Option String) (d : Dt) (t u : String) (rest : List Bulletin)
    (hl : lista_boletins join w.listing = .ok ((d, t, u) :: rest))
    (hch : novaAtualizacao (carrega_ultimo file) d = false) :
    mainRun join env w file = .ok ⟨file, []⟩ := by
  simp only [mainRun, hl, hch, Bool.false_eq_true, if_false]

/-! ## C1: order of watermark write and notification dispatch -/

/-- Counterexample to claim C1 as stated: a CHANGED run (no prior watermark,
one candidate dated 2024-03-15) whose Telegram post fails.  The dispatch
outcome is `posted false` (attempted and failed), yet the persisted watermark
did change from `none` to the candidate's date — the claim asserts it would
be unchanged. -/
theorem c1_counterexample :
    (mainRun (fun _ h => h) ⟨some "tok", some "chat"⟩
        ⟨some [⟨"250 BGSDS DE 15MAR2024", some "b.pdf"⟩], some "texto", "", false⟩
        none).map RunResult.file = .ok (some "2024-03-15T00:00:00") ∧
      (mainRun (fun _ h => h) ⟨some "tok", some "chat"⟩
          ⟨some [⟨"250 BGSDS DE 15MAR2024", some "b.pdf"⟩], some "texto", "", false⟩
          none).map (fun r => r.dispatches.map Prod.snd) =
        .ok [SendOutcome.posted false] := by
  constructor <;> decide

/-- Claim C1 (amended): in the CHANGED branch the durable watermark is written
BEFORE notification dispatch is attempted: every CHANGED run persists the
newest candidate's date as the watermark regardless of the dispatch outcome
(success, transport failure, or skipped for missing configuration), so a
failed dispatch is not retried on the next run. -/
theorem c1_watermark_written_regardless (join : String → String → String)
    (env : Env) (w : World) (file : Option String) (d : Dt) (t u : String)
    (rest : List Bulletin)
    (hl : lista_boletins join w.listing = .ok ((d, t, u) :: rest))
    (hch : novaAtualizacao (carrega_ultimo file) d = true) :
    ∃ msg, mainRun join env w file =
      .ok ⟨salva_ultimo d, [(msg, envia_telegram env w.telegramOk)]⟩ :=
  ⟨header ++ corpoMsg t u (resumoPalavras w),
    mainRun_changed join env w file d t u rest hl hch⟩

/-- Witness for the amended C1 at a concrete CHANGED run with a failing
transport. -/
theorem c1_witness :
    ∃ msg, mainRun (fun _ h => h) ⟨some "tok", some "chat"⟩
        ⟨some [⟨"250 BGSDS DE 15MAR2024", some "b.pdf"⟩], some "texto", "", false⟩
        none =
      .ok ⟨salva_ultimo ⟨2024, 3, 15, 0, 0, 0⟩,
        [(msg, envia_telegram ⟨some "tok", some "chat"⟩ false)]⟩ :=
  c1_watermark_written_regardless (fun _ h => h) ⟨some "tok", some "chat"⟩
    ⟨some [⟨"250 BGSDS DE 15MAR2024", some "b.pdf"⟩], some "texto", "", false⟩
    none ⟨2024, 3, 15, 0, 0, 0⟩ "250 BGSDS DE 15MAR2024" "b.pdf" []
    (by decide) (by decide)

/-! ## C3: empty candidate sequence -/

/-- Counterexample to claim C3 as stated: with a fetched page containing no
anchors (empty candidate sequence) and working configuration/transport, the
run does send a notification — the diagnostic message — while the claim
asserts no notification of any kind is sent. -/
theorem c3_counterexample :
    (mainRun (fun _ h => h) ⟨some "tok", some "chat"⟩
        ⟨some [], some "texto", "", true⟩
        (some "2024-01-01")).map (fun r => r.dispatches.map Prod.snd) =
      .ok [SendOutcome.posted true] := by
  decide

/-- Claim C3 (amended): for every run in which the candidate sequence is
empty, the orchestrator does not write the watermark, but it does dispatch
one diagnostic notification (the site-unreadable warning) rather than staying
silent. -/
theorem c3_empty_sends_diagnostic (join : String → String → String) (env : Env)
    (w : World) (file : Option String)
    (hl : lista_boletins join w.listing = .ok []) :
    mainRun join env w file =
      .ok ⟨file, [(header ++ avisoListaVazia, envia_telegram env w.telegramOk)]⟩ :=
  mainRun_empty join env w file hl

/-- Witness for the amended C3 at a concrete fetched-but-empty page. -/
theorem c3_witness :
    mainRun (fun _ h => h) ⟨some "tok", some "chat"⟩ ⟨some [], some "texto", "", true⟩
        (some "2024-01-01") =
      .ok ⟨some "2024-01-01",
        [(header ++ avisoListaVazia, envia_telegram ⟨some "tok", some "chat"⟩ true)]⟩ :=
  c3_empty_sends_diagnostic (fun _ h => h) ⟨some "tok", some "chat"⟩
    ⟨some [], some "texto", "", true⟩ (some "2024-01-01") (by decide)

/-! ## C4: missing notification configuration -/

/-- Counterexample to claim C4 as stated: with `TELEGRAM_BOT_TOKEN` unset and
a CHANGED run, no error is raised before the bulletin decision — the run
proceeds, mutates the watermark from `none` to the candidate's date, and only
then the dispatch step notices the missing configuration and returns. -/
theorem c4_counterexample :
    (mainRun (fun _ h => h) ⟨none, some "chat"⟩
        ⟨some [⟨"250 BGSDS DE 15MAR2024", some "b.pdf"⟩], some "texto", "", true⟩
        none).map RunResult.file = .ok (some "2024-03-15T00:00:00") ∧
      (mainRun (fun _ h => h) ⟨none, some "chat"⟩
          ⟨some [⟨"250 BGSDS DE 15MAR2024", some "b.pdf"⟩], some "texto", "", true⟩
          none).map (fun r => r.dispatches.map Prod.snd) =
        .ok [SendOutcome.configMissing] := by
  constructor <;> decide

/-- Claim C4 (amended): a missing bot credential or destination identifier is
detected only inside the dispatch step, after the bulletin decision: the
dispatch is skipped with an error report and the run continues, and in a
CHANGED run the watermark is still mutated to the newest candidate's date. -/
theorem c4_config_checked_in_dispatch (join : String → String → String)
    (env : Env) (w : World) (file : Option String) (d : Dt) (t u : String)
    (rest : List Bulletin)
    (hcfg : pyTruthy env.token = false ∨ pyTruthy env.chat_id = false)
    (hl : lista_boletins join w.listing = .ok ((d, t, u) :: rest))
    (hch : novaAtualizacao (carrega_ultimo file) d = true) :
    ∃ msg, mainRun join env w file =
      .ok ⟨salva_ultimo d, [(msg, SendOutcome.configMissing)]⟩ := by
  refine ⟨header ++ corpoMsg t u (resumoPalavras w), ?_⟩
  rw [mainRun_changed join env w file d t u rest hl hch,
    envia_configMissing w.telegramOk hcfg]

/-- Witness for the amended C4 at a concrete CHANGED run with the token
unset. -/
theorem c4_witness :
    ∃ msg, mainRun (fun _ h => h) ⟨none, some "chat"⟩
        ⟨some [⟨"250 BGSDS DE 15MAR2024", some "b.pdf"⟩], some "texto", "", true⟩
        none =
      .ok ⟨salva_ultimo ⟨2024, 3, 15, 0, 0, 0⟩, [(msg, SendOutcome.configMissing)]⟩ :=
  c4_config_checked_in_dispatch (fun _ h => h) ⟨none, some "chat"⟩
    ⟨some [⟨"250 BGSDS DE 15MAR2024", some "b.pdf"⟩], some "texto", "", true⟩
    none ⟨2024, 3, 15, 0, 0, 0⟩ "250 BGSDS DE 15MAR2024" "b.pdf" []
    (Or.inl (by decide)) (by decide) (by decide)

/-! ## Supporting lemmas: every date produced by the Listing Parser is a
valid `datetime` (it came out of the `datetime` constructor) -/

theorem parse_data_valid {s : String} {t : Dt}
    (h : parse_data s = .ok (some t)) : validDt t := by
  unfold parse_data at h
  split at h
  · simp at h
  · split at h
    · simp at h
    · unfold mkDatetime at h
      split at h
      case isTrue hv =>
        simp only [Except.map, Except.ok.injEq, Option.some.injEq] at h
        rw [← h]
        exact ⟨hv, Nat.zero_le 23, Nat.zero_le 59, Nat.zero_le 59⟩
      case isFalse => simp [Except.map] at h

theorem candidatos_valid (join : String → String → String) :
    ∀ {anchors : List Anchor} {l : List Bulletin},
      candidatos join anchors = .ok l → ∀ b ∈ l, validDt b.1 := by
  intro anchors
  induction anchors with
  | nil =>
    intro l h b hb
    simp only [candidatos, Except.ok.injEq] at h
    rw [← h] at hb
    simp at hb
  | cons a rest ih =>
    intro l h b hb
    unfold candidatos at h
    split at h
    · split at h
      case h_1 => simp at h
      case h_2 hp => exact ih h b hb
      case h_3 data hp =>
        split at h
        · cases hc : candidatos join rest with
          | error e => rw [hc] at h; simp [Except.map] at h
          | ok l2 =>
            rw [hc] at h
            simp only [Except.map, Except.ok.injEq] at h
            rw [← h] at hb
            rcases List.mem_cons.mp hb with rfl | hb2
            · exact parse_data_valid hp
            · exact ih hc b hb2
        · exact ih h b hb
    · exact ih h b hb

theorem lista_boletins_valid (join : String → String → String)
    {fetch : Option (List Anchor)} {l : List Bulletin}
    (h : lista_boletins join fetch = .ok l) : ∀ b ∈ l, validDt b.1 := by
  cases fetch with
  | none =>
    intro b hb
    simp only [lista_boletins, Except.ok.injEq] at h
    rw [← h] at hb
    simp at hb
  | some anchors =>
    intro b hb
    cases hc : candidatos join anchors with
    | error e => simp [lista_boletins, hc, Except.map] at h
    | ok l0 =>
      simp only [lista_boletins, hc, Except.map, Except.ok.injEq] at h
      rw [← h] at hb
      exact candidatos_valid join hc b (mem_sortDesc hb)

/-! ## C2: idempotence and monotonic watermark progression -/

/-- Claim C2: in a CHANGED run (newest candidate `(d, t, u)`, watermark
absent or older) with working configuration and transport, exactly one
notification is delivered and the watermark becomes `d`; re-running with the
same listing delivers nothing and leaves the watermark file identical; and
any later run whose newest candidate is dated `≤ d` dispatches nothing and
leaves the watermark file unchanged. -/
theorem c2_idempotent (join : String → String → String) (env : Env) (w : World)
    (file : Option String) (d : Dt) (t u : String) (rest : List Bulletin)
    (hl : lista_boletins join w.listing = .ok ((d, t, u) :: rest))
    (hch : novaAtualizacao (carrega_ultimo file) d = true)
    (htok : pyTruthy env.token = true) (hcid : pyTruthy env.chat_id = true)
    (htr : w.telegramOk = true) :
    ∃ r1, mainRun join env w file = .ok r1 ∧ sentCount r1 = 1 ∧
      r1.file = salva_ultimo d ∧ carrega_ultimo r1.file = some d ∧
      mainRun join env w r1.file = .ok ⟨r1.file, []⟩ ∧
      ∀ (w2 : World) (d2 : Dt) (t2 u2 : String) (rest2 : List Bulletin),
        lista_boletins join w2.listing = .ok ((d2, t2, u2) :: rest2) →
        ¬ dtLt d d2 →
        mainRun join env w2 r1.file = .ok ⟨r1.file, []⟩ := by
  have hvalid : validDt d :=
    lista_boletins_valid join hl (d, t, u) (List.mem_cons_self _ _)
  have hrun1 := mainRun_changed join env w file d t u rest hl hch
  rw [envia_posted w.telegramOk htok hcid, htr] at hrun1
  refine ⟨_, hrun1, ?_, rfl, ?_, ?_, ?_⟩
  · simp [sentCount]
  · exact carrega_salva d hvalid
  · refine mainRun_unchanged join env w (salva_ultimo d) d t u rest hl ?_
    rw [carrega_salva d hvalid]
    simp [novaAtualizacao, dtLt_irrefl d]
  · intro w2 d2 t2 u2 rest2 hl2 hle
    refine mainRun_unchanged join env w2 (salva_ultimo d) d2 t2 u2 rest2 hl2 ?_
    rw [carrega_salva d hvalid]
    simp [novaAtualizacao, hle]

/-- Witness for C2: watermark absent, one candidate dated 2024-03-15, good
configuration and transport. -/
theorem c2_witness :
    ∃ r1, mainRun (fun _ h => h) ⟨some "tok", some "chat"⟩
        ⟨some [⟨"250 BGSDS DE 15MAR2024", some "b.pdf"⟩], some "texto", "", true⟩
        none = .ok r1 ∧ sentCount r1 = 1 ∧
      r1.file = salva_ultimo ⟨2024, 3, 15, 0, 0, 0⟩ ∧
      carrega_ultimo r1.file = some ⟨2024, 3, 15, 0, 0, 0⟩ ∧
      mainRun (fun _ h => h) ⟨some "tok", some "chat"⟩
        ⟨some [⟨"250 BGSDS DE 15MAR2024", some "b.pdf"⟩], some "texto", "", true⟩
        r1.file = .ok ⟨r1.file, []⟩ ∧
      ∀ (w2 : World) (d2 : Dt) (t2 u2 : String) (rest2 : List Bulletin),
        lista_boletins (fun _ h => h) w2.listing = .ok ((d2, t2, u2) :: rest2) →
        ¬ dtLt ⟨2024, 3, 15, 0, 0, 0⟩ d2 →
        mainRun (fun _ h => h) ⟨some "tok", some "chat"⟩ w2 r1.file =
          .ok ⟨r1.file, []⟩ :=
  c2_idempotent (fun _ h => h) ⟨some "tok", some "chat"⟩
    ⟨some [⟨"250 BGSDS DE 15MAR2024", some "b.pdf"⟩], some "texto", "", true⟩
    none ⟨2024, 3, 15, 0, 0, 0⟩ "250 BGSDS DE 15MAR2024" "b.pdf" []
    (by decide) (by decide) (by decide) (by decide) (by decide)

/-! ## Supporting lemmas: substring containment in built messages -/

theorem containsSubL_here (n suf : List Char) : containsSubL n (n ++ suf) = true := by
  cases n with
  | nil =>
    cases suf with
    | nil => rfl
    | cons c t => simp [containsSubL, List.isPrefixOf]
  | cons c t =>
    have hp : (c :: t).isPrefixOf ((c :: t) ++ suf) = true := by
      rw [List.isPrefixOf_iff_prefix]
      exact List.prefix_append _ _
    simp [containsSubL, hp]

theorem containsSubL_append_left (n x l : List Char)
    (h : containsSubL n l = true) : containsSubL n (x ++ l) = true := by
  induction x with
  | nil => exact h
  | cons c cs ih => simp [containsSubL, ih]

/-! ## C9: document analysis failure still notifies and advances watermark -/

/-- Claim C9: in a CHANGED run whose document fetch / text extraction raises
(`w.pdfText = none`), with working configuration and transport, the
notification is still delivered: the message contains the new bulletin's
title, its document URL and the explicit analysis-failure marker in place of
the keyword report, and the watermark still advances to the candidate's
date. -/
theorem c9_analysis_failure_still_notifies (join : String → String → String)
    (env : Env) (w : World) (file : Option String) (d : Dt) (t u : String)
    (rest : List Bulletin)
    (hl : lista_boletins join w.listing = .ok ((d, t, u) :: rest))
    (hch : novaAtualizacao (carrega_ultimo file) d = true)
    (hpdf : w.pdfText = none)
    (htok : pyTruthy env.token = true) (hcid : pyTruthy env.chat_id = true)
    (htr : w.telegramOk = true) :
    ∃ msg, mainRun join env w file =
        .ok ⟨salva_ultimo d, [(msg, SendOutcome.posted true)]⟩ ∧
      pyIn "⚠️ Erro ao analisar o PDF: " msg = true ∧
      pyIn t msg = true ∧ pyIn u msg = true := by
  have hrun := mainRun_changed join env w file d t u rest hl hch
  rw [envia_posted w.telegramOk htok hcid, htr] at hrun
  refine ⟨header ++ corpoMsg t u (resumoPalavras w), hrun, ?_, ?_, ?_⟩
  · simp only [pyIn, resumoPalavras, hpdf, corpoMsg, String.data_append,
      List.append_assoc]
    repeat (first | exact containsSubL_here _ _ | apply containsSubL_append_left)
  · simp only [pyIn, corpoMsg, String.data_append, List.append_assoc]
    repeat (first | exact containsSubL_here _ _ | apply containsSubL_append_left)
  · simp only [pyIn, corpoMsg, String.data_append, List.append_assoc]
    repeat (first | exact containsSubL_here _ _ | apply containsSubL_append_left)

/-- Witness for C9 at a concrete CHANGED run whose PDF analysis raised. -/
theorem c9_witness :
    ∃ msg, mainRun (fun _ h => h) ⟨some "tok", some "chat"⟩
        ⟨some [⟨"250 BGSDS DE 15MAR2024", some "b.pdf"⟩], none, "timeout", true⟩
        none =
        .ok ⟨salva_ultimo ⟨2024, 3, 15, 0, 0, 0⟩, [(msg, SendOutcome.posted true)]⟩ ∧
      pyIn "⚠️ Erro ao analisar o PDF: " msg = true ∧
      pyIn "250 BGSDS DE 15MAR2024" msg = true ∧ pyIn "b.pdf" msg = true :=
  c9_analysis_failure_still_notifies (fun _ h => h) ⟨some "tok", some "chat"⟩
    ⟨some [⟨"250 BGSDS DE 15MAR2024", some "b.pdf"⟩], none, "timeout", true⟩
    none ⟨2024, 3, 15, 0, 0, 0⟩ "250 BGSDS DE 15MAR2024" "b.pdf" []
    (by decide) (by decide) rfl (by decide) (by decide) (by decide)

/-! ## C5: the Date Extractor against a declarative pattern specification

`specMatchL l r` says, purely declaratively, that `l` decomposes as
`DE`, a run of whitespace, a run of 1–2 digits, three uppercase letters and
four digits (anything may follow), with `r` the captured values.
`matchAt_eq_some_iff` proves the executable matcher equivalent to this
decomposition, and `searchFirst_eq_some_iff` captures `re.search`'s
leftmost-occurrence semantics. -/

def specMatchL (l : List Char) (r : Nat × List Char × Nat) : Prop :=
  ∃ (ws ds ys rest : List Char) (m1 m2 m3 : Char),
    l = 'D' :: 'E' :: (ws ++ (ds ++ m1 :: m2 :: m3 :: (ys ++ rest))) ∧
    (∀ c ∈ ws, isPySpace c = true) ∧
    (∀ c ∈ ds, isPyDigit c = true) ∧ (ds.length = 1 ∨ ds.length = 2) ∧
    isUpperAZ m1 = true ∧ isUpperAZ m2 = true ∧ isUpperAZ m3 = true ∧
    (∀ c ∈ ys, isPyDigit c = true) ∧ ys.length = 4 ∧
    r = (digitsVal ds, [m1, m2, m3], digitsVal ys)

/-- An occurrence of the syntactic pattern at position `i` of `cs`. -/
def specMatchAt (cs : List Char) (i : Nat) (r : Nat × List Char × Nat) : Prop :=
  specMatchL (cs.drop i) r

theorem isPySpace_of_isPyDigit {c : Char} (h : isPyDigit c = true) :
    isPySpace c = false := by
  simp only [isPyDigit, Bool.and_eq_true, decide_eq_true_eq] at h
  simp only [isPySpace, Bool.or_eq_false_iff, beq_eq_false_iff_ne, ne_eq]
  omega

theorem isPyDigit_of_isUpperAZ {c : Char} (h : isUpperAZ c = true) :
    isPyDigit c = false := by
  simp only [isUpperAZ, Bool.and_eq_true, decide_eq_true_eq] at h
  simp only [isPyDigit, Bool.and_eq_false_iff, decide_eq_false_iff_not]
  omega

theorem isPySpace_of_isUpperAZ {c : Char} (h : isUpperAZ c = true) :
    isPySpace c = false := by
  simp only [isUpperAZ, Bool.and_eq_true, decide_eq_true_eq] at h
  simp only [isPySpace, Bool.or_eq_false_iff, beq_eq_false_iff_ne, ne_eq]
  omega

theorem dropWhile_append_all {p : Char → Bool} {l1 : List Char} (l2 : List Char)
    (h : ∀ c ∈ l1, p c = true) : (l1 ++ l2).dropWhile p = l2.dropWhile p := by
  induction l1 with
  | nil => rfl
  | cons c cs ih =>
    rw [List.cons_append, List.dropWhile_cons, if_pos (h c (List.mem_cons_self _ _))]
    exact ih (fun x hx => h x (List.mem_cons_of_mem _ hx))

theorem dropWhile_cons_neg {p : Char → Bool} {c : Char} (l : List Char)
    (h : p c = false) : (c :: l).dropWhile p = c :: l := by
  rw [List.dropWhile_cons, if_neg (by simp [h])]

theorem takeWhile_append_of_head_neg {p : Char → Bool} {l1 : List Char}
    {c : Char} (l2 : List Char) (hall : ∀ x ∈ l1, p x = true) (hc : p c = false) :
    (l1 ++ c :: l2).takeWhile p = l1 := by
  induction l1 with
  | nil => rw [List.nil_append, List.takeWhile_cons, if_neg (by simp [hc])]
  | cons d ds ih =>
    rw [List.cons_append, List.takeWhile_cons, if_pos (hall d (List.mem_cons_self _ _))]
    rw [ih (fun x hx => hall x (List.mem_cons_of_mem _ hx))]

theorem dropWhile_append_of_head_neg {p : Char → Bool} {l1 : List Char}
    {c : Char} (l2 : List Char) (hall : ∀ x ∈ l1, p x = true) (hc : p c = false) :
    (l1 ++ c :: l2).dropWhile p = c :: l2 := by
  rw [dropWhile_append_all (c :: l2) hall, dropWhile_cons_neg l2 hc]

theorem matchYear_eq_some_iff {ds mon r3 : List Char} {r : Nat × List Char × Nat} :
    matchYear ds mon r3 = some r ↔
      ∃ (ys rest : List Char), r3 = ys ++ rest ∧ ys.length = 4 ∧
        (∀ c ∈ ys, isPyDigit c = true) ∧ r = (digitsVal ds, mon, digitsVal ys) := by
  constructor
  · intro h
    unfold matchYear at h
    split at h
    case h_1 c1 c2 c3 c4 tail =>
      split at h
      case isTrue hd =>
        simp only [Bool.and_eq_true] at hd
        obtain ⟨⟨⟨h1, h2⟩, h3⟩, h4⟩ := hd
        refine ⟨[c1, c2, c3, c4], tail, rfl, rfl, ?_, by simpa using h.symm⟩
        intro c hc
        simp only [List.mem_cons, List.not_mem_nil, or_false] at hc
        rcases hc with rfl | rfl | rfl | rfl <;> assumption
      case isFalse => cases h
    case h_2 => cases h
  · rintro ⟨ys, rest, rfl, hlen, hdig, rfl⟩
    match ys, hlen, hdig with
    | [c1, c2, c3, c4], _, hdig =>
      show matchYear ds mon (c1 :: c2 :: c3 :: c4 :: rest) = _
      simp only [matchYear]
      rw [if_pos (by
        simp only [Bool.and_eq_true]
        exact ⟨⟨⟨hdig _ (by simp), hdig _ (by simp)⟩, hdig _ (by simp)⟩,
          hdig _ (by simp)⟩)]

theorem matchMonth_eq_some_iff {ds r2 : List Char} {r : Nat × List Char × Nat} :
    matchMonth ds r2 = some r ↔
      ∃ (m1 m2 m3 : Char) (r3 : List Char), r2 = m1 :: m2 :: m3 :: r3 ∧
        isUpperAZ m1 = true ∧ isUpperAZ m2 = true ∧ isUpperAZ m3 = true ∧
        matchYear ds [m1, m2, m3] r3 = some r := by
  constructor
  · intro h
    unfold matchMonth at h
    split at h
    case h_1 m1 m2 m3 r3 =>
      split at h
      case isTrue hu =>
        simp only [Bool.and_eq_true] at hu
        exact ⟨m1, m2, m3, r3, rfl, hu.1.1, hu.1.2, hu.2, h⟩
      case isFalse => cases h
    case h_2 => cases h
  · rintro ⟨m1, m2, m3, r3, rfl, h1, h2, h3, h⟩
    simp only [matchMonth]
    rw [if_pos (by simp only [Bool.and_eq_true]; exact ⟨⟨h1, h2⟩, h3⟩)]
    exact h

theorem matchAfterDE_eq_some_iff {r1 : List Char} {r : Nat × List Char × Nat} :
    matchAfterDE r1 = some r ↔
      ∃ (ds r2 : List Char), r1 = ds ++ r2 ∧ (∀ c ∈ ds, isPyDigit c = true) ∧
        (ds.length = 1 ∨ ds.length = 2) ∧ matchMonth ds r2 = some r := by
  constructor
  · intro h
    unfold matchAfterDE at h
    split at h
    case isTrue hlen =>
      refine ⟨r1.takeWhile isPyDigit, r1.dropWhile isPyDigit,
        (List.takeWhile_append_dropWhile _ _).symm, ?_, hlen, h⟩
      intro c hc
      exact List.mem_takeWhile_imp hc
    case isFalse => cases h
  · rintro ⟨ds, r2, rfl, hdig, hlen, h⟩
    obtain ⟨m1, m2, m3, r3, rfl, h1, h2, h3, hy⟩ := matchMonth_eq_some_iff.mp h
    have htake : (ds ++ m1 :: m2 :: m3 :: r3).takeWhile isPyDigit = ds :=
      takeWhile_append_of_head_neg _ hdig (isPyDigit_of_isUpperAZ h1)
    have hdrop : (ds ++ m1 :: m2 :: m3 :: r3).dropWhile isPyDigit = m1 :: m2 :: m3 :: r3 :=
      dropWhile_append_of_head_neg _ hdig (isPyDigit_of_isUpperAZ h1)
    unfold matchAfterDE
    rw [htake, hdrop, if_pos hlen]
    exact matchMonth_eq_some_iff.mpr ⟨m1, m2, m3, r3, rfl, h1, h2, h3, hy⟩

theorem matchAt_eq_some_iff {cs : List Char} {r : Nat × List Char × Nat} :
    matchAt cs = some r ↔ specMatchL cs r := by
  constructor
  · intro h
    unfold matchAt at h
    split at h
    case h_1 c1 c2 rest =>
      split at h
      case isTrue hde =>
        obtain ⟨rfl, rfl⟩ := hde
        obtain ⟨ds, r2, hsplit, hdig, hlen, hm⟩ := matchAfterDE_eq_some_iff.mp h
        obtain ⟨m1, m2, m3, r3, rfl, h1, h2, h3, hy⟩ := matchMonth_eq_some_iff.mp hm
        obtain ⟨ys, tail, rfl, hylen, hydig, rfl⟩ := matchYear_eq_some_iff.mp hy
        refine ⟨rest.takeWhile isPySpace, ds, ys, tail, m1, m2, m3, ?_,
          (fun c hc => List.mem_takeWhile_imp hc), hdig, hlen, h1, h2, h3,
          hydig, hylen, rfl⟩
        have : rest = rest.takeWhile isPySpace ++ rest.dropWhile isPySpace :=
          (List.takeWhile_append_dropWhile _ _).symm
        rw [hsplit] at this
        simpa using this
      case isFalse => cases h
    case h_2 => cases h
  · rintro ⟨ws, ds, ys, rest, m1, m2, m3, rfl, hws, hdig, hlen, h1, h2, h3,
      hydig, hylen, rfl⟩
    have hds : ∃ d0 ds0, ds = d0 :: ds0 := by
      cases ds with
      | nil => rcases hlen with h | h <;> simp at h
      | cons d0 ds0 => exact ⟨d0, ds0, rfl⟩
    obtain ⟨d0, ds0, rfl⟩ := hds
    simp only [matchAt]
    rw [if_pos (by simp)]
    have hdrop : (ws ++ (d0 :: ds0 ++ m1 :: m2 :: m3 :: (ys ++ rest))).dropWhile isPySpace =
        d0 :: ds0 ++ m1 :: m2 :: m3 :: (ys ++ rest) := by
      rw [dropWhile_append_all _ hws]
      exact dropWhile_cons_neg _
        (isPySpace_of_isPyDigit (hdig d0 (List.mem_cons_self _ _)))
    rw [hdrop]
    refine matchAfterDE_eq_some_iff.mpr ⟨d0 :: ds0, m1 :: m2 :: m3 :: (ys ++ rest),
      rfl, hdig, hlen, ?_⟩
    refine matchMonth_eq_some_iff.mpr ⟨m1, m2, m3, ys ++ rest, rfl, h1, h2, h3, ?_⟩
    exact matchYear_eq_some_iff.mpr ⟨ys, rest, rfl, hylen, hydig, rfl⟩

theorem searchFirst_eq_some_iff {cs : List Char} {r : Nat × List Char × Nat} :
    searchFirst cs = some r ↔
      ∃ i, matchAt (cs.drop i) = some r ∧ ∀ j < i, matchAt (cs.drop j) = none := by
  induction cs with
  | nil =>
    simp only [searchFirst]
    constructor
    · intro h; cases h
    · rintro ⟨i, hi, _⟩
      simp [List.drop_nil, matchAt] at hi
  | cons c t ih =>
    simp only [searchFirst]
    cases hm : matchAt (c :: t) with
    | some r2 =>
      constructor
      · intro h
        refine ⟨0, ?_, by omega⟩
        rw [List.drop_zero, hm]
        exact h
      · rintro ⟨i, hi, hmin⟩
        cases i with
        | zero => rw [List.drop_zero, hm] at hi; exact hi
        | succ i2 =>
          have h0 := hmin 0 (by omega)
          rw [List.drop_zero, hm] at h0
          cases h0
    | none =>
      rw [ih]
      constructor
      · rintro ⟨i, hi, hmin⟩
        refine ⟨i + 1, by simpa using hi, ?_⟩
        intro j hj
        cases j with
        | zero => simpa using hm
        | succ j2 => simpa using hmin j2 (by omega)
      · rintro ⟨i, hi, hmin⟩
        cases i with
        | zero => rw [List.drop_zero, hm] at hi; cases hi
        | succ i2 =>
          refine ⟨i2, by simpa using hi, ?_⟩
          intro j hj
          have := hmin (j + 1) (by omega)
          simpa using this

/-- Counterexample to claim C5 as stated: the label
`"BGSDS DE 1XXX2020 DE 2JAN2021"` contains the pattern `DE 2JAN2021` — month
abbreviation `JAN` in the lookup table, a perfectly constructible date — yet
the Date Extractor returns "no match", because `re.search` commits to the
LEFTMOST syntactic occurrence `DE 1XXX2020`, whose month `XXX` is not in the
table. -/
theorem c5_counterexample :
    specMatchAt (pyUpperL ("BGSDS DE 1XXX2020 DE 2JAN2021").data) 18
        (2, ['J', 'A', 'N'], 2021) ∧
      mesesGet ['J', 'A', 'N'] = some "01" ∧
      mkDatetime 2021 (digitsVal "01".data) 2 = .ok ⟨2021, 1, 2, 0, 0, 0⟩ ∧
      parse_data "BGSDS DE 1XXX2020 DE 2JAN2021" = .ok none := by
  refine ⟨⟨[' '], ['2'], ['2', '0', '2', '1'], [], 'J', 'A', 'N',
    by decide, by decide, by decide, by decide, by decide, by decide, by decide,
    by decide, by decide, by decide⟩, by decide, by decide, by decide⟩

/-- Claim C5 (amended): the Date Extractor commits to the LEFTMOST occurrence
of the syntactic pattern `DE <1-2 digits><3 uppercase letters><4 digits>` in
the uppercased label.  If no occurrence exists it returns "no match"; if the
leftmost occurrence's month abbreviation is not in the table it returns
"no match" (even when a later valid occurrence exists); if it is in the
table, the result is the `datetime` built from that occurrence's literal
day, mapped month and year. -/
theorem c5_extractor_leftmost (s : String) :
    ((∀ i r, ¬ specMatchAt (pyUpperL s.data) i r) → parse_data s = .ok none) ∧
    (∀ i d mon y, specMatchAt (pyUpperL s.data) i (d, mon, y) →
      (∀ j, j < i → ∀ r, ¬ specMatchAt (pyUpperL s.data) j r) →
      parse_data s =
        match mesesGet mon with
        | none => .ok none
        | some mes => (mkDatetime y (digitsVal mes.data) d).map some) := by
  constructor
  · intro hno
    have hsn : searchFirst (pyUpperL s.data) = none := by
      cases hs : searchFirst (pyUpperL s.data) with
      | none => rfl
      | some r =>
        obtain ⟨i, hi, _⟩ := searchFirst_eq_some_iff.mp hs
        exact absurd (matchAt_eq_some_iff.mp hi) (hno i r)
    unfold parse_data
    rw [hsn]
  · intro i d mon y hspec hmin
    have hs : searchFirst (pyUpperL s.data) = some (d, mon, y) := by
      refine searchFirst_eq_some_iff.mpr ⟨i, matchAt_eq_some_iff.mpr hspec, ?_⟩
      intro j hj
      cases hm : matchAt ((pyUpperL s.data).drop j) with
      | none => rfl
      | some r2 => exact absurd (matchAt_eq_some_iff.mp hm) (hmin j hj r2)
    unfold parse_data
    rw [hs]

/-- Witness for the amended C5: the standard label, whose pattern occurrence
at position 10 is leftmost, parses to 2024-03-15. -/
theorem c5_witness :
    parse_data "250 BGSDS DE 15MAR2024" = .ok (some ⟨2024, 3, 15, 0, 0, 0⟩) := by
  have h := (c5_extractor_leftmost "250 BGSDS DE 15MAR2024").2 10 15 ['M', 'A', 'R'] 2024
    ⟨[' '], ['1', '5'], ['2', '0', '2', '4'], [], 'M', 'A', 'R',
      by decide, by decide, by decide, by decide, by decide, by decide, by decide,
      by decide, by decide, by decide⟩
    (by
      intro j hj r hr
      have hm := matchAt_eq_some_iff.mpr hr
      have hnone : matchAt ((pyUpperL ("250 BGSDS DE 15MAR2024").data).drop j) = none := by
        interval_cases j <;> decide
      rw [hnone] at hm
      exact Option.noConfusion hm)
  exact h.trans (by decide)

/-! ## C7: a candidate whose matched day/month/year are not a valid date -/

/-- Counterexample to claim C7 as stated: a page holding the candidate
`BGSDS DE 31FEV2024` (31 February, not a valid date) followed by the valid
candidate `BGSDS DE 15MAR2024`.  The construction failure is NOT contained to
the failing candidate: `lista_boletins` propagates the `ValueError`, the
valid candidate is lost, and `main` aborts, instead of dropping the one
candidate and continuing. -/
theorem c7_counterexample :
    parse_data "BGSDS DE 31FEV2024" = .error () ∧
      parse_data "BGSDS DE 15MAR2024" = .ok (some ⟨2024, 3, 15, 0, 0, 0⟩) ∧
      lista_boletins (fun _ h => h)
          (some [⟨"BGSDS DE 31FEV2024", some "a.pdf"⟩,
                 ⟨"BGSDS DE 15MAR2024", some "b.pdf"⟩]) = .error () ∧
      mainRun (fun _ h => h) ⟨some "tok", some "chat"⟩
          ⟨some [⟨"BGSDS DE 31FEV2024", some "a.pdf"⟩,
                 ⟨"BGSDS DE 15MAR2024", some "b.pdf"⟩], some "texto", "", true⟩
          none = .error () := by
  refine ⟨by decide, by decide, by decide, by decide⟩

theorem candidatos_error_append (join : String → String → String)
    (pre post : List Anchor) (a : Anchor)
    (hpre : ∀ b ∈ pre, pyIn "BGSDS" b.texto = false ∨ ∃ o, parse_data b.texto = .ok o)
    (ha : pyIn "BGSDS" a.texto = true) (hp : parse_data a.texto = .error ()) :
    candidatos join (pre ++ a :: post) = .error () := by
  induction pre with
  | nil =>
    simp only [List.nil_append, candidatos, ha, if_true, hp]
  | cons b pre ih =>
    have ih2 := ih (fun x hx => hpre x (List.mem_cons_of_mem _ hx))
    by_cases hb : pyIn "BGSDS" b.texto = true
    · rcases hpre b (List.mem_cons_self _ _) with hfalse | ⟨o, ho⟩
      · rw [hb] at hfalse; cases hfalse
      · cases o with
        | none =>
          simp only [List.cons_append, candidatos, hb, if_true, ho]
          exact ih2
        | some data =>
          simp only [List.cons_append, candidatos, hb, if_true, ho]
          split
          · have h3 : candidatos join (pre.append (a :: post)) = Except.error () := ih2
            rw [h3]; rfl
          · exact ih2
    · rw [Bool.not_eq_true] at hb
      simp only [List.cons_append, candidatos, hb, Bool.false_eq_true, if_false]
      exact ih2

/-- Claim C7 (amended): when a candidate's label matches the pattern but the
matched day/month/year do not form a valid calendar date, the `ValueError`
from the `datetime` constructor is not caught: the Listing Parser aborts with
the error (all candidates, including later valid ones, are lost) and the
whole run aborts with it — the failure is not contained to that candidate. -/
theorem c7_invalid_date_aborts_run (join : String → String → String) (env : Env)
    (w : World) (file : Option String) (pre post : List Anchor) (a : Anchor)
    (hw : w.listing = some (pre ++ a :: post))
    (hpre : ∀ b ∈ pre, pyIn "BGSDS" b.texto = false ∨ ∃ o, parse_data b.texto = .ok o)
    (ha : pyIn "BGSDS" a.texto = true)
    (hp : parse_data a.texto = .error ()) :
    lista_boletins join w.listing = .error () ∧ mainRun join env w file = .error () := by
  have hc := candidatos_error_append join pre post a hpre ha hp
  have hlb : lista_boletins join w.listing = .error () := by
    rw [hw]
    simp only [lista_boletins, hc, Except.map]
  exact ⟨hlb, by simp only [mainRun, hlb]⟩

/-- Witness for the amended C7: one earlier valid candidate, the 31-February
candidate, one later valid candidate; the parser and the run abort. -/
theorem c7_witness :
    lista_boletins (fun _ h => h)
        (some [⟨"BGSDS DE 15ABR2024", some "p.pdf"⟩,
               ⟨"BGSDS DE 31FEV2024", some "a.pdf"⟩,
               ⟨"BGSDS DE 15MAR2024", some "b.pdf"⟩]) = .error () ∧
      mainRun (fun _ h => h) ⟨some "tok", some "chat"⟩
        ⟨some [⟨"BGSDS DE 15ABR2024", some "p.pdf"⟩,
               ⟨"BGSDS DE 31FEV2024", some "a.pdf"⟩,
               ⟨"BGSDS DE 15MAR2024", some "b.pdf"⟩], some "texto", "", true⟩
        none = .error () :=
  c7_invalid_date_aborts_run (fun _ h => h) ⟨some "tok", some "chat"⟩
    ⟨some [⟨"BGSDS DE 15ABR2024", some "p.pdf"⟩,
           ⟨"BGSDS DE 31FEV2024", some "a.pdf"⟩,
           ⟨"BGSDS DE 15MAR2024", some "b.pdf"⟩], some "texto", "", true⟩
    none [⟨"BGSDS DE 15ABR2024", some "p.pdf"⟩] [⟨"BGSDS DE 15MAR2024", some "b.pdf"⟩]
    ⟨"BGSDS DE 31FEV2024", some "a.pdf"⟩ rfl
    (by
      intro b hb
      simp only [List.mem_cons, List.not_mem_nil, or_false] at hb
      subst hb
      exact Or.inr ⟨some ⟨2024, 4, 15, 0, 0, 0⟩, by decide⟩)
    (by decide) (by decide)

/-! ## C8: transport failure versus successful-but-empty listing -/

/-- Counterexample to claim C8 as stated: a transport failure of the listing
fetch (`fetch = none`) and a successfully fetched page with no matching links
(`fetch = some []`) produce the very same value `.ok []` — the caller cannot
distinguish "page fetch failed" from "page fetched, no matching links". -/
theorem c8_counterexample :
    lista_boletins (fun _ h => h) none = .ok ([] : List Bulletin) ∧
      lista_boletins (fun _ h => h) (some []) = .ok ([] : List Bulletin) ∧
      lista_boletins (fun _ h => h) none = lista_boletins (fun _ h => h) (some []) := by
  refine ⟨by decide, by decide, by decide⟩

/-- Claim C8 (amended): a transport/parse failure of the listing-page fetch
is NOT reported distinctly: `lista_boletins` catches it and returns the empty
list, the same value it returns for any successfully fetched page with no
surviving candidates, so no caller can distinguish the two cases. -/
theorem c8_transport_conflated (join : String → String → String)
    (anchors : List Anchor) (h : candidatos join anchors = .ok []) :
    lista_boletins join none = .ok [] ∧
      lista_boletins join (some anchors) = .ok [] ∧
      lista_boletins join none = lista_boletins join (some anchors) := by
  have h2 : lista_boletins join (some anchors) = .ok [] := by
    simp only [lista_boletins, h, Except.map]
    rfl
  exact ⟨rfl, h2, h2.symm⟩

/-- Witness for the amended C8: a fetched page with one non-bulletin link. -/
theorem c8_witness :
    lista_boletins (fun _ h => h) none = .ok [] ∧
      lista_boletins (fun _ h => h) (some [⟨"Outras notícias", some "n.html"⟩]) = .ok [] ∧
      lista_boletins (fun _ h => h) none =
        lista_boletins (fun _ h => h) (some [⟨"Outras notícias", some "n.html"⟩]) :=
  c8_transport_conflated (fun _ h => h) [⟨"Outras notícias", some "n.html"⟩] (by decide)

end Monitor
